import Mathlib

/-!
Shallow embedding of `jicgeometry` (Point2D / Point3D) version 0.6.0.

Python floats are modelled as exact rationals; Python ints as `ℤ`.
Runtime values that can reach a coordinate slot are modelled by `PyVal`.
Fallible operations return `Except PyError _`.
-/

/-- Python runtime values that the library's entry points can receive in a
coordinate slot.  (A Python list/tuple can only arrive as the first
constructor argument; that case is modelled separately by `PyArg`.) -/
inductive PyVal where
  | intV (n : ℤ)
  | floatV (q : ℚ)
  | boolV (b : Bool)
  | strV (s : String)
  | noneV
deriving DecidableEq, Repr

/-- The first argument of either constructor: a scalar value or a sequence. -/
inductive PyArg where
  | val (v : PyVal)
  | seq (l : List PyVal)
deriving DecidableEq, Repr

/-- The error kinds the library can raise, one per distinct Python exception site:
`typeMismatch` = RuntimeError from `_set_types`; `cannotUnpack` = TypeError from
unpacking a non-iterable; `wrongUnpackCount` = ValueError from unpacking a sequence
of the wrong length; `indexOutOfRange` = IndexError from `__getitem__`;
`invalidDtype` = RuntimeError from `astype`; `zeroDivision` = ZeroDivisionError. -/
inductive PyError where
  | typeMismatch
  | cannotUnpack
  | wrongUnpackCount
  | indexOutOfRange
  | invalidDtype
  | zeroDivision
deriving DecidableEq, Repr

/-- Python `isinstance(v, int)`.  NOTE: in Python `bool` is a subclass of `int`,
so `isinstance(True, int)` is `True`. -/
def isinstance_int : PyVal → Bool
  | .intV _ => true
  | .boolV _ => true
  | _ => false

/-- Python `isinstance(v, float)`. -/
def isinstance_float : PyVal → Bool
  | .floatV _ => true
  | _ => false

/-- `v` is literally an `int` object (not a `bool`). -/
def isIntV : PyVal → Bool
  | .intV _ => true
  | _ => false

/-- `v` is literally a `float` object. -/
def isFloatV : PyVal → Bool
  | .floatV _ => true
  | _ => false

/-- `v` is a Python iterable (here: a string or a sequence never occurs in
`PyVal`, only strings are iterable scalars). -/
def isIterable : PyVal → Bool
  | .strV _ => true
  | _ => false

/-- The exact numeric value of an int/float/bool; junk value 0 on the
non-numeric constructors (every use below is guarded by an isinstance check). -/
def pyNumVal : PyVal → ℚ
  | .intV n => (n : ℚ)
  | .floatV q => q
  | .boolV b => if b then 1 else 0
  | _ => 0

/-- The integer value of an int-like value (`int` or `bool`); junk 0 otherwise. -/
def pyIntVal : PyVal → ℤ
  | .intV n => n
  | .boolV b => if b then 1 else 0
  | _ => 0

/-- Python `float(v)` for the values that can reach it here.  (`float` applied
to a numeric string would parse it; no library call site modelled below can
receive a string, as `_set_types` has already rejected it or the claim only
concerns numeric scalars.) -/
def pyFloatFn : PyVal → Except PyError ℚ
  | .intV n => .ok (n : ℚ)
  | .floatV q => .ok q
  | .boolV b => .ok (if b then 1 else 0)
  | _ => .error .typeMismatch

/-- Round half to even (banker's rounding), the semantics of Python 3 `round`.
(`Rat.floor` is the kernel-computable floor of Batteries.) -/
def roundHalfEven (q : ℚ) : ℤ :=
  let f := q.floor
  let r := q - (f : ℚ)
  if r < 1 / 2 then f
  else if 1 / 2 < r then f + 1
  else if f % 2 = 0 then f else f + 1

/-- Truncation toward zero, the semantics of Python `int()` on a float. -/
def truncQ (q : ℚ) : ℤ := if 0 ≤ q then q.floor else q.ceil

/-- Python `round(v, 0)`: identity on ints, banker's rounding (returning a
float) on floats; on a `bool` it returns the underlying `int`. -/
def pyRound0 : PyVal → Except PyError PyVal
  | .intV n => .ok (.intV n)
  | .boolV b => .ok (.intV (if b then 1 else 0))
  | .floatV q => .ok (.floatV ((roundHalfEven q : ℤ) : ℚ))
  | _ => .error .typeMismatch

/-- Python `int(v)` for the values reaching it here (no string parsing occurs
at any modelled call site). -/
def pyIntFn : PyVal → Except PyError ℤ
  | .intV n => .ok n
  | .boolV b => .ok (if b then 1 else 0)
  | .floatV q => .ok (truncQ q)
  | _ => .error .typeMismatch

/-- Python `v * w` where `w` is a scalar: int-like times int-like is an int;
if either factor is a float the product is a float.  (`int * str` repetition
cannot occur at the modelled call sites: the left factor is a point
coordinate, already validated numeric.) -/
def pyMul (v w : PyVal) : Except PyError PyVal :=
  if isinstance_int v && isinstance_int w then
    .ok (.intV (pyIntVal v * pyIntVal w))
  else if (isinstance_int v || isinstance_float v)
      && (isinstance_int w || isinstance_float w) then
    .ok (.floatV (pyNumVal v * pyNumVal w))
  else
    .error .typeMismatch

/-- Python `v == w` for the values that can be stored in a point (numeric
values compare by numeric value, so `1 == 1.0 == True` in Python). -/
def pyEqVal (v w : PyVal) : Bool :=
  if (isinstance_int v || isinstance_float v)
      && (isinstance_int w || isinstance_float w) then
    pyNumVal v == pyNumVal w
  else
    match v, w with
    | .strV s, .strV t => s == t
    | .noneV, .noneV => true
    | _, _ => false

/-- Python `"{:.2f}".format(q)`: fixed-point with two digits after the point.
The exact value is rounded half-to-even at the second decimal (the
double-rounding artifacts of binary floats are not modelled). -/
def fmtFixed2 (q : ℚ) : String :=
  let n : ℤ := roundHalfEven (q * 100)
  let sign := if n < 0 then "-" else ""
  let m := n.natAbs
  let frac := m % 100
  let fracStr := if frac < 10 then "0" ++ toString frac else toString frac
  sign ++ toString (m / 100) ++ "." ++ fracStr

/-- Python `"{}".format(v)` for values storable in a point.  (`str` of a float
only occurs for non-constructible points and is rendered as a rational.) -/
def pyStrOf : PyVal → String
  | .intV n => toString n
  | .boolV true => "True"
  | .boolV false => "False"
  | .strV s => s
  | .noneV => "None"
  | .floatV q => toString q

/-- The state of a `Point2D` instance after `__init__` returns. -/
structure Point2D where
  x : PyVal
  y : PyVal
  dtype : String
deriving DecidableEq, Repr

/-- The state of a `Point3D` instance after `__init__` returns. -/
structure Point3D where
  x : PyVal
  y : PyVal
  z : PyVal
  dtype : String
deriving DecidableEq, Repr

/-- `Point2D._set_types`: reject any coordinate that is not an `int` or a
`float` instance (RuntimeError); if both are `int` instances keep them and set
dtype "int"; otherwise promote both with `float()` and set dtype "float". -/
def Point2D._set_types (x y : PyVal) : Except PyError Point2D :=
  if !(isinstance_int x || isinstance_float x) then .error .typeMismatch
  else if !(isinstance_int y || isinstance_float y) then .error .typeMismatch
  else if isinstance_int x && isinstance_int y then
    .ok ⟨x, y, "int"⟩
  else
    .ok ⟨.floatV (pyNumVal x), .floatV (pyNumVal y), "float"⟩

/-- `Point3D._set_types`, the three-coordinate analog. -/
def Point3D._set_types (x y z : PyVal) : Except PyError Point3D :=
  if !(isinstance_int x || isinstance_float x) then .error .typeMismatch
  else if !(isinstance_int y || isinstance_float y) then .error .typeMismatch
  else if !(isinstance_int z || isinstance_float z) then .error .typeMismatch
  else if isinstance_int x && isinstance_int y && isinstance_int z then
    .ok ⟨x, y, z, "int"⟩
  else
    .ok ⟨.floatV (pyNumVal x), .floatV (pyNumVal y), .floatV (pyNumVal z), "float"⟩

/-- Python unpacking `x, y = a1` of the first constructor argument: a
2-sequence unpacks; a wrong-length sequence raises ValueError; a 2-character
string unpacks into 1-character strings; any other scalar raises TypeError
(not iterable). -/
def unpack2 : PyArg → Except PyError (PyVal × PyVal)
  | .seq [a, b] => .ok (a, b)
  | .seq _ => .error .wrongUnpackCount
  | .val (.strV s) =>
    match s.data with
    | [c, d] => .ok (.strV (String.mk [c]), .strV (String.mk [d]))
    | _ => .error .wrongUnpackCount
  | .val _ => .error .cannotUnpack

/-- Python unpacking `x, y, z = a1`, the three-element analog. -/
def unpack3 : PyArg → Except PyError (PyVal × PyVal × PyVal)
  | .seq [a, b, c] => .ok (a, b, c)
  | .seq _ => .error .wrongUnpackCount
  | .val (.strV s) =>
    match s.data with
    | [c, d, e] => .ok (.strV (String.mk [c]), .strV (String.mk [d]), .strV (String.mk [e]))
    | _ => .error .wrongUnpackCount
  | .val _ => .error .cannotUnpack

/-- `Point2D.__init__(a1, a2=None)`: when `a2` is None, `a1` is unpacked as a
sequence of x, y; otherwise the two arguments are the coordinates.  A sequence
passed together with a non-None `a2` lands in a coordinate slot and fails the
isinstance check in `_set_types` (a list is neither int nor float). -/
def Point2D.init (a1 : PyArg) (a2 : PyVal) : Except PyError Point2D :=
  if a2 = .noneV then do
    let (x, y) ← unpack2 a1
    Point2D._set_types x y
  else
    match a1 with
    | .val v => Point2D._set_types v a2
    | .seq _ => .error .typeMismatch

/-- `Point3D.__init__(a1, a2=None, a3=None)`: only when BOTH `a2` and `a3` are
non-None are the three arguments taken as coordinates; otherwise `a1` is
unpacked as a 3-sequence (so a call with only two scalar arguments tries to
unpack the first scalar). -/
def Point3D.init (a1 : PyArg) (a2 a3 : PyVal) : Except PyError Point3D :=
  if a2 ≠ .noneV ∧ a3 ≠ .noneV then
    match a1 with
    | .val v => Point3D._set_types v a2 a3
    | .seq _ => .error .typeMismatch
  else do
    let (x, y, z) ← unpack3 a1
    Point3D._set_types x y z

/-- A point state reachable through the constructor: dtype "int" with int-like
components, or dtype "float" with float components. -/
def wf2 (p : Point2D) : Bool :=
  (p.dtype == "int" && isinstance_int p.x && isinstance_int p.y)
    || (p.dtype == "float" && isFloatV p.x && isFloatV p.y)

/-- Reachable `Point3D` states, as for `wf2`. -/
def wf3 (p : Point3D) : Bool :=
  (p.dtype == "int" && isinstance_int p.x && isinstance_int p.y && isinstance_int p.z)
    || (p.dtype == "float" && isFloatV p.x && isFloatV p.y && isFloatV p.z)

/-- `Point2D.__getitem__`: key 0 gives x, key 1 gives y, anything else raises
IndexError (negative keys included: the source compares with `==`). -/
def Point2D.getitem (p : Point2D) (key : ℤ) : Except PyError PyVal :=
  if key = 0 then .ok p.x
  else if key = 1 then .ok p.y
  else .error .indexOutOfRange

/-- `Point3D.__getitem__`: keys 0, 1, 2 give x, y, z; anything else raises
IndexError. -/
def Point3D.getitem (p : Point3D) (key : ℤ) : Except PyError PyVal :=
  if key = 0 then .ok p.x
  else if key = 1 then .ok p.y
  else if key = 2 then .ok p.z
  else .error .indexOutOfRange

/-- `Point2D.__mul__`: `Point2D(self.x * other, self.y * other)`. -/
def Point2D.mul (p : Point2D) (other : PyVal) : Except PyError Point2D := do
  let x ← pyMul p.x other
  let y ← pyMul p.y other
  Point2D.init (.val x) y

/-- `Point3D.__mul__`: the three-coordinate analog. -/
def Point3D.mul (p : Point3D) (other : PyVal) : Except PyError Point3D := do
  let x ← pyMul p.x other
  let y ← pyMul p.y other
  let z ← pyMul p.z other
  Point3D.init (.val x) y z

/-- `Point2D.__div__` (and `__truediv__`): `self * (1 / float(other))`.
Python raises ZeroDivisionError on `1 / 0.0`, before `self` is touched. -/
def Point2D.div (p : Point2D) (other : PyVal) : Except PyError Point2D := do
  let q ← pyFloatFn other
  if q = 0 then .error .zeroDivision
  else Point2D.mul p (.floatV (1 / q))

/-- `Point3D.__div__` (and `__truediv__`), as for `Point2D.div`. -/
def Point3D.div (p : Point3D) (other : PyVal) : Except PyError Point3D := do
  let q ← pyFloatFn other
  if q = 0 then .error .zeroDivision
  else Point3D.mul p (.floatV (1 / q))

/-- `Point2D.astype("int")` is `Point2D(int(round(x, 0)), int(round(y, 0)))`;
`astype("float")` is `Point2D(float(x), float(y))`; anything else raises
RuntimeError. -/
def Point2D.astype (p : Point2D) (dt : String) : Except PyError Point2D :=
  if dt = "int" then do
    let rx ← pyRound0 p.x
    let nx ← pyIntFn rx
    let ry ← pyRound0 p.y
    let ny ← pyIntFn ry
    Point2D.init (.val (.intV nx)) (.intV ny)
  else if dt = "float" then do
    let fx ← pyFloatFn p.x
    let fy ← pyFloatFn p.y
    Point2D.init (.val (.floatV fx)) (.floatV fy)
  else .error .invalidDtype

/-- `Point3D.astype`, the three-coordinate analog. -/
def Point3D.astype (p : Point3D) (dt : String) : Except PyError Point3D :=
  if dt = "int" then do
    let rx ← pyRound0 p.x
    let nx ← pyIntFn rx
    let ry ← pyRound0 p.y
    let ny ← pyIntFn ry
    let rz ← pyRound0 p.z
    let nz ← pyIntFn rz
    Point3D.init (.val (.intV nx)) (.intV ny) (.intV nz)
  else if dt = "float" then do
    let fx ← pyFloatFn p.x
    let fy ← pyFloatFn p.y
    let fz ← pyFloatFn p.z
    Point3D.init (.val (.floatV fx)) (.floatV fy) (.floatV fz)
  else .error .invalidDtype

/-- `Point2D.__eq__`: dtypes must match, then component-wise `==`. -/
def Point2D.eq (p r : Point2D) : Bool :=
  if p.dtype ≠ r.dtype then false
  else pyEqVal p.x r.x && pyEqVal p.y r.y

/-- `Point3D.__eq__`, the three-coordinate analog. -/
def Point3D.eq (p r : Point3D) : Bool :=
  if p.dtype ≠ r.dtype then false
  else pyEqVal p.x r.x && pyEqVal p.y r.y && pyEqVal p.z r.z

/-- `Point2D.__repr__`: int components via `"{}"`, float components via
`"{:.2f}"`. -/
def Point2D.repr (p : Point2D) : String :=
  if p.dtype = "float" then
    "<Point2D(x=" ++ fmtFixed2 (pyNumVal p.x) ++ ", y=" ++ fmtFixed2 (pyNumVal p.y)
      ++ ", dtype=" ++ p.dtype ++ ")>"
  else
    "<Point2D(x=" ++ pyStrOf p.x ++ ", y=" ++ pyStrOf p.y
      ++ ", dtype=" ++ p.dtype ++ ")>"

/-- `Point3D.__repr__`.  NOTE: the float branch of the source (line 212)
formats with the string `"<Point2D(x=..., y=..., z=..., dtype=...)>"` — the
class name in that format string says `Point2D`, not `Point3D`. -/
def Point3D.repr (p : Point3D) : String :=
  if p.dtype = "float" then
    "<Point2D(x=" ++ fmtFixed2 (pyNumVal p.x) ++ ", y=" ++ fmtFixed2 (pyNumVal p.y)
      ++ ", z=" ++ fmtFixed2 (pyNumVal p.z) ++ ", dtype=" ++ p.dtype ++ ")>"
  else
    "<Point3D(x=" ++ pyStrOf p.x ++ ", y=" ++ pyStrOf p.y
      ++ ", z=" ++ pyStrOf p.z ++ ", dtype=" ++ p.dtype ++ ")>"

/-- `Point2D.magnitude`: `math.sqrt(x**2 + y**2)`, as a real number. -/
noncomputable def Point2D.magnitude (p : Point2D) : ℝ :=
  Real.sqrt ((pyNumVal p.x : ℝ) ^ 2 + (pyNumVal p.y : ℝ) ^ 2)

/-- `Point3D.magnitude`: `math.sqrt(x**2 + y**2 + z**2)`. -/
noncomputable def Point3D.magnitude (p : Point3D) : ℝ :=
  Real.sqrt ((pyNumVal p.x : ℝ) ^ 2 + (pyNumVal p.y : ℝ) ^ 2 + (pyNumVal p.z : ℝ) ^ 2)

/-- `Point2D.unit_vector`: `Point2D(x / magnitude, y / magnitude)`.  Python
float division raises ZeroDivisionError exactly when the divisor is `0.0`,
and `math.sqrt s = 0` iff `s = 0` (see `Point2D.magnitude_eq_zero_iff`); the
decidable zero test is therefore on the sum of squares.  On success the two
real quotients are the float coordinates handed to the constructor (which
always succeeds on floats, giving dtype "float"). -/
noncomputable def Point2D.unit_vector (p : Point2D) : Except PyError (ℝ × ℝ) :=
  if pyNumVal p.x ^ 2 + pyNumVal p.y ^ 2 = 0 then .error .zeroDivision
  else .ok ((pyNumVal p.x : ℝ) / p.magnitude, (pyNumVal p.y : ℝ) / p.magnitude)

/-- `Point3D.unit_vector`, as for `Point2D.unit_vector`. -/
noncomputable def Point3D.unit_vector (p : Point3D) : Except PyError (ℝ × ℝ × ℝ) :=
  if pyNumVal p.x ^ 2 + pyNumVal p.y ^ 2 + pyNumVal p.z ^ 2 = 0 then .error .zeroDivision
  else .ok ((pyNumVal p.x : ℝ) / p.magnitude, (pyNumVal p.y : ℝ) / p.magnitude,
    (pyNumVal p.z : ℝ) / p.magnitude)

/-- `v` is an `int` or `float` object proper (the claims' "numeric component"). -/
def strictNumeric (v : PyVal) : Bool := isIntV v || isFloatV v

lemma strictNumeric_cases (v : PyVal) (h : strictNumeric v = true) :
    (∃ n : ℤ, v = .intV n) ∨ (∃ q : ℚ, v = .floatV q) := by
  cases v with
  | intV n => exact Or.inl ⟨n, rfl⟩
  | floatV q => exact Or.inr ⟨q, rfl⟩
  | boolV b => simp [strictNumeric, isIntV, isFloatV] at h
  | strV s => simp [strictNumeric, isIntV, isFloatV] at h
  | noneV => simp [strictNumeric, isIntV, isFloatV] at h

lemma intlike_cases (v : PyVal) (h : isinstance_int v = true) :
    (∃ n : ℤ, v = .intV n) ∨ (∃ b : Bool, v = .boolV b) := by
  cases v with
  | intV n => exact Or.inl ⟨n, rfl⟩
  | boolV b => exact Or.inr ⟨b, rfl⟩
  | floatV q => simp [isinstance_int] at h
  | strV s => simp [isinstance_int] at h
  | noneV => simp [isinstance_int] at h

lemma nonnumeric_cases (v : PyVal)
    (h : (isinstance_int v || isinstance_float v) = false) :
    (∃ s : String, v = .strV s) ∨ v = .noneV := by
  cases v with
  | strV s => exact Or.inl ⟨s, rfl⟩
  | noneV => exact Or.inr rfl
  | intV n => simp [isinstance_int] at h
  | boolV b => simp [isinstance_int] at h
  | floatV q => simp [isinstance_float] at h

/-- C1: constructing a Point2D or Point3D from numeric components, through
either the separate-argument or the sequence form: all-int inputs give dtype
"int" with the given int objects stored unchanged; if at least one input is a
float, every stored component is a float of the same numeric value and dtype
is "float". -/
theorem c1_type_unification (v1 v2 v3 : PyVal)
    (h1 : strictNumeric v1 = true) (h2 : strictNumeric v2 = true)
    (h3 : strictNumeric v3 = true) :
    ((isIntV v1 && isIntV v2) = true →
      Point2D.init (.val v1) v2 = .ok ⟨v1, v2, "int"⟩ ∧
      Point2D.init (.seq [v1, v2]) .noneV = .ok ⟨v1, v2, "int"⟩) ∧
    ((isFloatV v1 || isFloatV v2) = true →
      Point2D.init (.val v1) v2
        = .ok ⟨.floatV (pyNumVal v1), .floatV (pyNumVal v2), "float"⟩ ∧
      Point2D.init (.seq [v1, v2]) .noneV
        = .ok ⟨.floatV (pyNumVal v1), .floatV (pyNumVal v2), "float"⟩) ∧
    ((isIntV v1 && isIntV v2 && isIntV v3) = true →
      Point3D.init (.val v1) v2 v3 = .ok ⟨v1, v2, v3, "int"⟩ ∧
      Point3D.init (.seq [v1, v2, v3]) .noneV .noneV = .ok ⟨v1, v2, v3, "int"⟩) ∧
    ((isFloatV v1 || isFloatV v2 || isFloatV v3) = true →
      Point3D.init (.val v1) v2 v3
        = .ok ⟨.floatV (pyNumVal v1), .floatV (pyNumVal v2), .floatV (pyNumVal v3), "float"⟩ ∧
      Point3D.init (.seq [v1, v2, v3]) .noneV .noneV
        = .ok ⟨.floatV (pyNumVal v1), .floatV (pyNumVal v2), .floatV (pyNumVal v3), "float"⟩) := by
  rcases strictNumeric_cases v1 h1 with ⟨n1, rfl⟩ | ⟨q1, rfl⟩ <;>
  rcases strictNumeric_cases v2 h2 with ⟨n2, rfl⟩ | ⟨q2, rfl⟩ <;>
  rcases strictNumeric_cases v3 h3 with ⟨n3, rfl⟩ | ⟨q3, rfl⟩ <;>
    simp [Point2D.init, Point3D.init, Point2D._set_types, Point3D._set_types,
      unpack2, unpack3, isinstance_int, isinstance_float, isIntV, isFloatV,
      pyNumVal, Bind.bind, Except.bind]

/-- C1 witness at `Point2D(3, 4)`, `Point2D(3, 2.5)`, `Point3D(3, 4, 7)`. -/
theorem c1_type_unification_witness :
    Point2D.init (.val (.intV 3)) (.intV 4)
      = .ok ⟨.intV 3, .intV 4, "int"⟩ ∧
    Point2D.init (.val (.intV 3)) (.floatV (5/2))
      = .ok ⟨.floatV 3, .floatV (5/2), "float"⟩ ∧
    Point3D.init (.seq [.intV 3, .intV 4, .intV 7]) .noneV .noneV
      = .ok ⟨.intV 3, .intV 4, .intV 7, "int"⟩ := by
  refine ⟨?_, ?_, ?_⟩
  · exact ((c1_type_unification (.intV 3) (.intV 4) (.intV 7)
      (by decide) (by decide) (by decide)).1 (by decide)).1
  · have h := ((c1_type_unification (.intV 3) (.floatV (5/2)) (.intV 7)
      (by decide) (by decide) (by decide)).2.1 (by decide)).1
    simpa [pyNumVal] using h
  · exact ((c1_type_unification (.intV 3) (.intV 4) (.intV 7)
      (by decide) (by decide) (by decide)).2.2.1 (by decide)).2

/-- C2 counterexample: a boolean is NOT rejected.  Python `bool` is a subclass
of `int`, so `Point2D(True, False)` and `Point3D(True, False, True)` construct
int-typed points instead of raising TypeMismatch. -/
theorem c2_boolean_construction_succeeds :
    Point2D.init (.val (.boolV true)) (.boolV false)
      = .ok ⟨.boolV true, .boolV false, "int"⟩ ∧
    Point3D.init (.val (.boolV true)) (.boolV false) (.boolV true)
      = .ok ⟨.boolV true, .boolV false, .boolV true, "int"⟩ :=
  ⟨rfl, rfl⟩

/-- C2 (amended): a component that is not an instance of `int` (booleans count
as ints) and not an instance of `float` — a string or None — makes
construction fail with TypeMismatch, and no instance is produced. -/
theorem c2_nonnumeric_rejected (v1 v2 v3 : PyVal) :
    ((isinstance_int v1 || isinstance_float v1) = false
        ∨ (isinstance_int v2 || isinstance_float v2) = false →
      Point2D._set_types v1 v2 = .error .typeMismatch ∧
      (v2 ≠ .noneV → Point2D.init (.val v1) v2 = .error .typeMismatch)) ∧
    ((isinstance_int v1 || isinstance_float v1) = false
        ∨ (isinstance_int v2 || isinstance_float v2) = false
        ∨ (isinstance_int v3 || isinstance_float v3) = false →
      Point3D._set_types v1 v2 v3 = .error .typeMismatch ∧
      (v2 ≠ .noneV → v3 ≠ .noneV →
        Point3D.init (.val v1) v2 v3 = .error .typeMismatch)) := by
  constructor
  · intro h
    have hs : Point2D._set_types v1 v2 = .error .typeMismatch := by
      rcases h with h | h
      · simp [Point2D._set_types, h]
      · cases hb : (isinstance_int v1 || isinstance_float v1) with
        | false => simp [Point2D._set_types, hb]
        | true => simp [Point2D._set_types, hb, h]
    exact ⟨hs, fun hne => by simp [Point2D.init, hne, hs]⟩
  · intro h
    have hs : Point3D._set_types v1 v2 v3 = .error .typeMismatch := by
      rcases h with h | h | h
      · simp [Point3D._set_types, h]
      · cases hb : (isinstance_int v1 || isinstance_float v1) with
        | false => simp [Point3D._set_types, hb]
        | true => simp [Point3D._set_types, hb, h]
      · cases hb : (isinstance_int v1 || isinstance_float v1) with
        | false => simp [Point3D._set_types, hb]
        | true =>
          cases hc : (isinstance_int v2 || isinstance_float v2) with
          | false => simp [Point3D._set_types, hb, hc]
          | true => simp [Point3D._set_types, hb, hc, h]
    refine ⟨hs, fun h2 h3 => ?_⟩
    simp [Point3D.init, h2, h3, hs]

/-- C2 witness: a string coordinate is rejected in either slot. -/
theorem c2_nonnumeric_rejected_witness :
    Point2D._set_types (.strV "a") (.intV 2) = .error .typeMismatch ∧
    Point3D.init (.val (.intV 1)) (.strV "a") (.intV 3) = .error .typeMismatch := by
  constructor
  · exact ((c2_nonnumeric_rejected (.strV "a") (.intV 2) (.intV 3)).1
      (Or.inl (by decide))).1
  · exact ((c2_nonnumeric_rejected (.intV 1) (.strV "a") (.intV 3)).2
      (Or.inr (Or.inl (by decide)))).2 (by decide) (by decide)

lemma isFloatV_isinstance (v : PyVal) (h : isFloatV v = true) :
    isinstance_float v = true := by
  cases v <;> simp_all [isFloatV, isinstance_float]

lemma wf2_numeric (p : Point2D) (h : wf2 p = true) :
    (isinstance_int p.x || isinstance_float p.x) = true ∧
    (isinstance_int p.y || isinstance_float p.y) = true := by
  simp only [wf2, Bool.or_eq_true, Bool.and_eq_true] at h
  rcases h with ⟨⟨_, hx⟩, hy⟩ | ⟨⟨_, hx⟩, hy⟩
  · simp [hx, hy]
  · simp [isFloatV_isinstance _ hx, isFloatV_isinstance _ hy]

lemma wf3_numeric (p : Point3D) (h : wf3 p = true) :
    (isinstance_int p.x || isinstance_float p.x) = true ∧
    (isinstance_int p.y || isinstance_float p.y) = true ∧
    (isinstance_int p.z || isinstance_float p.z) = true := by
  simp only [wf3, Bool.or_eq_true, Bool.and_eq_true] at h
  rcases h with ⟨⟨⟨_, hx⟩, hy⟩, hz⟩ | ⟨⟨⟨_, hx⟩, hy⟩, hz⟩
  · simp [hx, hy, hz]
  · simp [isFloatV_isinstance _ hx, isFloatV_isinstance _ hy,
      isFloatV_isinstance _ hz]

lemma pyMul_float (v : PyVal) (q : ℚ)
    (hv : (isinstance_int v || isinstance_float v) = true) :
    pyMul v (.floatV q) = .ok (.floatV (pyNumVal v * q)) := by
  cases v <;> simp_all [pyMul, isinstance_int, isinstance_float, pyNumVal]

lemma init2_float_float (a b : ℚ) :
    Point2D.init (.val (.floatV a)) (.floatV b)
      = .ok ⟨.floatV a, .floatV b, "float"⟩ := rfl

lemma init3_float_float (a b c : ℚ) :
    Point3D.init (.val (.floatV a)) (.floatV b) (.floatV c)
      = .ok ⟨.floatV a, .floatV b, .floatV c, "float"⟩ := rfl

lemma pyFloatFn_strictNumeric (s : PyVal) (hs : strictNumeric s = true) :
    pyFloatFn s = .ok (pyNumVal s) := by
  rcases strictNumeric_cases s hs with ⟨n, rfl⟩ | ⟨q, rfl⟩ <;> rfl

/-- C3: for any constructible point and nonzero numeric scalar, `p / s` is
exact component-wise true division and the result's dtype is "float", also
when everything is an integer and the division is exact. -/
theorem c3_division_always_float (p : Point2D) (P : Point3D) (s : PyVal)
    (hp : wf2 p = true) (hP : wf3 P = true)
    (hs : strictNumeric s = true) (hnz : pyNumVal s ≠ 0) :
    p.div s = .ok ⟨.floatV (pyNumVal p.x / pyNumVal s),
      .floatV (pyNumVal p.y / pyNumVal s), "float"⟩ ∧
    P.div s = .ok ⟨.floatV (pyNumVal P.x / pyNumVal s),
      .floatV (pyNumVal P.y / pyNumVal s),
      .floatV (pyNumVal P.z / pyNumVal s), "float"⟩ := by
  obtain ⟨hx2, hy2⟩ := wf2_numeric p hp
  obtain ⟨hx3, hy3, hz3⟩ := wf3_numeric P hP
  have hfs := pyFloatFn_strictNumeric s hs
  constructor
  · simp [Point2D.div, hfs, hnz, Point2D.mul, Bind.bind, Except.bind,
      pyMul_float _ _ hx2, pyMul_float _ _ hy2, init2_float_float, mul_one_div, div_eq_mul_inv]
  · simp [Point3D.div, hfs, hnz, Point3D.mul, Bind.bind, Except.bind,
      pyMul_float _ _ hx3, pyMul_float _ _ hy3, pyMul_float _ _ hz3,
      init3_float_float, mul_one_div, div_eq_mul_inv]

/-- C3 witness: `Point2D(3, 0) / 2` and `Point3D(2, 3, 4) / 2`, both exact
divisions of int points by an int scalar, give float-typed results. -/
theorem c3_division_always_float_witness :
    Point2D.div ⟨.intV 3, .intV 0, "int"⟩ (.intV 2)
      = .ok ⟨.floatV (3/2), .floatV 0, "float"⟩ ∧
    Point3D.div ⟨.intV 2, .intV 3, .intV 4, "int"⟩ (.intV 2)
      = .ok ⟨.floatV 1, .floatV (3/2), .floatV 2, "float"⟩ := by
  have h := c3_division_always_float ⟨.intV 3, .intV 0, "int"⟩
    ⟨.intV 2, .intV 3, .intV 4, "int"⟩ (.intV 2)
    (by decide) (by decide) (by decide) (by norm_num [pyNumVal])
  constructor
  · have h1 := h.1
    norm_num [pyNumVal] at h1
    exact h1
  · have h2 := h.2
    norm_num [pyNumVal] at h2
    exact h2

lemma ratFloor_intCast (m : ℤ) : Rat.floor ((m : ℤ) : ℚ) = m := by
  simp [Rat.floor]

lemma ratCeil_intCast (m : ℤ) : Rat.ceil ((m : ℤ) : ℚ) = m := by
  simp [Rat.ceil]

lemma roundHalfEven_intCast (m : ℤ) : roundHalfEven ((m : ℤ) : ℚ) = m := by
  norm_num [roundHalfEven, ratFloor_intCast]

lemma truncQ_intCast (m : ℤ) : truncQ ((m : ℤ) : ℚ) = m := by
  unfold truncQ
  split <;> simp [ratFloor_intCast, ratCeil_intCast]

lemma pyRound0_intCast (m : ℤ) :
    pyRound0 (.floatV ((m : ℤ) : ℚ)) = .ok (.floatV ((m : ℤ) : ℚ)) := by
  simp [pyRound0, roundHalfEven_intCast]

lemma pyIntFn_intCast (m : ℤ) : pyIntFn (.floatV ((m : ℤ) : ℚ)) = .ok m := by
  simp [pyIntFn, truncQ_intCast]

lemma pyRound0_intlike (v : PyVal) (hv : isinstance_int v = true) :
    pyRound0 v = .ok (.intV (pyIntVal v)) := by
  rcases intlike_cases v hv with ⟨n, rfl⟩ | ⟨b, rfl⟩
  · rfl
  · cases b <;> rfl

lemma pyFloatFn_intlike (v : PyVal) (hv : isinstance_int v = true) :
    pyFloatFn v = .ok ((pyIntVal v : ℤ) : ℚ) := by
  rcases intlike_cases v hv with ⟨n, rfl⟩ | ⟨b, rfl⟩
  · rfl
  · cases b <;> simp [pyFloatFn, pyIntVal]

lemma pyIntVal_eq_pyNumVal (v : PyVal) (hv : isinstance_int v = true) :
    ((pyIntVal v : ℤ) : ℚ) = pyNumVal v := by
  rcases intlike_cases v hv with ⟨n, rfl⟩ | ⟨b, rfl⟩
  · rfl
  · cases b <;> simp [pyIntVal, pyNumVal]

lemma init2_int_int (a b : ℤ) :
    Point2D.init (.val (.intV a)) (.intV b)
      = .ok ⟨.intV a, .intV b, "int"⟩ := rfl

lemma init3_int_int (a b c : ℤ) :
    Point3D.init (.val (.intV a)) (.intV b) (.intV c)
      = .ok ⟨.intV a, .intV b, .intV c, "int"⟩ := rfl

/-- `round` then `int`, on any coordinate of a constructible point, is exactly
round-half-to-even of its numeric value. -/
lemma round_int_step (v : PyVal)
    (hv : (isinstance_int v || isinstance_float v) = true) :
    ∃ w, pyRound0 v = .ok w ∧ pyIntFn w = .ok (roundHalfEven (pyNumVal v)) := by
  cases v with
  | intV n =>
    exact ⟨.intV n, rfl, by simp [pyIntFn, pyNumVal, roundHalfEven_intCast]⟩
  | boolV b =>
    cases b
    · exact ⟨.intV 0, rfl, by with_unfolding_all rfl⟩
    · exact ⟨.intV 1, rfl, by with_unfolding_all rfl⟩
  | floatV q =>
    exact ⟨.floatV ((roundHalfEven q : ℤ) : ℚ), rfl,
      by simp [pyIntFn, pyNumVal, truncQ_intCast]⟩
  | strV s => simp [isinstance_int, isinstance_float] at hv
  | noneV => simp [isinstance_int, isinstance_float] at hv

/-- C4: `astype "int"` rounds each component independently with banker's
rounding (round half to even) and yields an int-typed point; in particular
`Point3D(5.9, 8.2, 9.5).astype("int")` is `Point3D(6, 8, 10)`. -/
theorem c4_astype_int_half_even (p : Point2D) (P : Point3D)
    (hp : wf2 p = true) (hP : wf3 P = true) :
    p.astype "int" = .ok ⟨.intV (roundHalfEven (pyNumVal p.x)),
      .intV (roundHalfEven (pyNumVal p.y)), "int"⟩ ∧
    P.astype "int" = .ok ⟨.intV (roundHalfEven (pyNumVal P.x)),
      .intV (roundHalfEven (pyNumVal P.y)),
      .intV (roundHalfEven (pyNumVal P.z)), "int"⟩ ∧
    (Point3D.init (.val (.floatV (59/10))) (.floatV (41/5)) (.floatV (19/2))
        >>= fun r => r.astype "int")
      = Point3D.init (.val (.intV 6)) (.intV 8) (.intV 10) := by
  obtain ⟨hx2, hy2⟩ := wf2_numeric p hp
  obtain ⟨hx3, hy3, hz3⟩ := wf3_numeric P hP
  obtain ⟨wx, hwx, hwx2⟩ := round_int_step p.x hx2
  obtain ⟨wy, hwy, hwy2⟩ := round_int_step p.y hy2
  obtain ⟨wX, hwX, hwX2⟩ := round_int_step P.x hx3
  obtain ⟨wY, hwY, hwY2⟩ := round_int_step P.y hy3
  obtain ⟨wZ, hwZ, hwZ2⟩ := round_int_step P.z hz3
  refine ⟨?_, ?_, ?_⟩
  · simp [Point2D.astype, Bind.bind, Except.bind, hwx, hwx2, hwy, hwy2,
      init2_int_int]
  · simp [Point3D.astype, Bind.bind, Except.bind, hwX, hwX2, hwY, hwY2,
      hwZ, hwZ2, init3_int_int]
  · with_unfolding_all rfl

/-- C4 witness: rounding 1.5 up to 2 and 2.5 down to 2 (ties go to even). -/
theorem c4_astype_int_half_even_witness :
    Point2D.astype ⟨.floatV (3/2), .floatV (5/2), "float"⟩ "int"
      = .ok ⟨.intV 2, .intV 2, "int"⟩ := by
  have h := (c4_astype_int_half_even ⟨.floatV (3/2), .floatV (5/2), "float"⟩
    ⟨.intV 0, .intV 0, .intV 0, "int"⟩ (by decide) (by decide)).1
  exact h.trans (by with_unfolding_all rfl)

/-- C5: calling `Point3D` with only two scalar arguments fails: the call falls
into the sequence branch, which cannot unpack a scalar (TypeError); the
sequence form with the same two components fails differently (ValueError for
a wrong-length sequence), so the two failures are distinguishable, and no
instance is produced by either. -/
theorem c5_missing_argument (a1 a2 : PyVal)
    (h1 : isIterable a1 = false) (_h2 : a2 ≠ .noneV) :
    Point3D.init (.val a1) a2 .noneV = .error .cannotUnpack ∧
    Point3D.init (.seq [a1, a2]) .noneV .noneV = .error .wrongUnpackCount ∧
    PyError.cannotUnpack ≠ PyError.wrongUnpackCount := by
  refine ⟨?_, rfl, by decide⟩
  have hu : unpack3 (.val a1) = .error .cannotUnpack := by
    cases a1 <;> simp_all [unpack3, isIterable]
  simp [Point3D.init, hu, Bind.bind, Except.bind]

/-- C5 witness: `Point3D(1, 2)`. -/
theorem c5_missing_argument_witness :
    Point3D.init (.val (.intV 1)) (.intV 2) .noneV = .error .cannotUnpack :=
  (c5_missing_argument (.intV 1) (.intV 2) (by decide) (by decide)).1

/-- C6 (code behavior at the failing input): the float branch of
`Point3D.__repr__` formats with a string whose class name reads `Point2D`, so
a float-typed `Point3D` does NOT render as `<Point3D(...)>`; the int branch
does.  The repository's own test suite asserts the `<Point2D(` rendering for
`Point3D` (Point3D_unit_tests.py, test_repr_float). -/
theorem c6_point3d_float_repr_wrong_class_name :
    (Point3D.init (.val (.floatV (3/2))) (.floatV (5/2)) (.floatV (7/2))).map Point3D.repr
      = .ok "<Point2D(x=1.50, y=2.50, z=3.50, dtype=float)>" ∧
    (Point3D.init (.val (.intV 1)) (.intV 2) (.intV 3)).map Point3D.repr
      = .ok "<Point3D(x=1, y=2, z=3, dtype=int)>" ∧
    (Point2D.init (.val (.floatV (3/2))) (.floatV 0)).map Point2D.repr
      = .ok "<Point2D(x=1.50, y=0.00, dtype=float)>" := by
  refine ⟨?_, ?_, ?_⟩ <;> with_unfolding_all rfl

/-- C7: indexed access returns x, y (and z for Point3D) for keys 0, 1 (and 2),
and raises IndexError for every other integer key, negative keys included; in
particular `Point3D(2, 3, 4)[3]` raises IndexError. -/
theorem c7_getitem_bounds (p : Point2D) (P : Point3D) (k : ℤ) :
    p.getitem 0 = .ok p.x ∧ p.getitem 1 = .ok p.y ∧
    (k ≠ 0 → k ≠ 1 → p.getitem k = .error .indexOutOfRange) ∧
    P.getitem 0 = .ok P.x ∧ P.getitem 1 = .ok P.y ∧ P.getitem 2 = .ok P.z ∧
    (k ≠ 0 → k ≠ 1 → k ≠ 2 → P.getitem k = .error .indexOutOfRange) ∧
    (Point3D.init (.val (.intV 2)) (.intV 3) (.intV 4)
        >>= fun q => q.getitem 3) = .error .indexOutOfRange := by
  refine ⟨rfl, rfl, fun h0 h1 => ?_, rfl, rfl, rfl, fun h0 h1 h2 => ?_, rfl⟩
  · simp [Point2D.getitem, h0, h1]
  · simp [Point3D.getitem, h0, h1, h2]

/-- C7 witness: a negative key and the out-of-range key 3. -/
theorem c7_getitem_bounds_witness :
    Point2D.getitem ⟨.intV 5, .intV 6, "int"⟩ (-1) = .error .indexOutOfRange ∧
    Point3D.getitem ⟨.intV 2, .intV 3, .intV 4, "int"⟩ 3 = .error .indexOutOfRange := by
  constructor
  · exact (c7_getitem_bounds ⟨.intV 5, .intV 6, "int"⟩
      ⟨.intV 2, .intV 3, .intV 4, "int"⟩ (-1)).2.2.1 (by decide) (by decide)
  · exact (c7_getitem_bounds ⟨.intV 5, .intV 6, "int"⟩
      ⟨.intV 2, .intV 3, .intV 4, "int"⟩ 3).2.2.2.2.2.2.1
      (by decide) (by decide) (by decide)

lemma wf2_int_components (p : Point2D) (h : wf2 p = true) (hd : p.dtype = "int") :
    isinstance_int p.x = true ∧ isinstance_int p.y = true := by
  simp only [wf2, Bool.or_eq_true, Bool.and_eq_true] at h
  rcases h with ⟨⟨_, hx⟩, hy⟩ | ⟨⟨hd2, _⟩, _⟩
  · exact ⟨hx, hy⟩
  · rw [hd] at hd2
    exact absurd hd2 (by decide)

lemma wf3_int_components (p : Point3D) (h : wf3 p = true) (hd : p.dtype = "int") :
    isinstance_int p.x = true ∧ isinstance_int p.y = true ∧
    isinstance_int p.z = true := by
  simp only [wf3, Bool.or_eq_true, Bool.and_eq_true] at h
  rcases h with ⟨⟨⟨_, hx⟩, hy⟩, hz⟩ | ⟨⟨⟨hd2, _⟩, _⟩, _⟩
  · exact ⟨hx, hy, hz⟩
  · rw [hd] at hd2
    exact absurd hd2 (by decide)

/-- C8: on an int-typed point, casting to "float" and back to "int" gives the
same result as casting directly to "int". -/
theorem c8_roundtrip_cast (p : Point2D) (P : Point3D)
    (hp : wf2 p = true) (hP : wf3 P = true)
    (hpi : p.dtype = "int") (hPi : P.dtype = "int") :
    (p.astype "float" >>= fun r => r.astype "int") = p.astype "int" ∧
    (P.astype "float" >>= fun r => r.astype "int") = P.astype "int" := by
  obtain ⟨hx, hy⟩ := wf2_int_components p hp hpi
  obtain ⟨hX, hY, hZ⟩ := wf3_int_components P hP hPi
  constructor
  · simp [Point2D.astype, Bind.bind, Except.bind,
      pyFloatFn_intlike _ hx, pyFloatFn_intlike _ hy,
      pyRound0_intlike _ hx, pyRound0_intlike _ hy,
      init2_float_float, pyRound0_intCast, pyIntFn_intCast, pyIntFn,
      truncQ_intCast, init2_int_int]
  · simp [Point3D.astype, Bind.bind, Except.bind,
      pyFloatFn_intlike _ hX, pyFloatFn_intlike _ hY, pyFloatFn_intlike _ hZ,
      pyRound0_intlike _ hX, pyRound0_intlike _ hY, pyRound0_intlike _ hZ,
      init3_float_float, pyRound0_intCast, pyIntFn_intCast, pyIntFn,
      truncQ_intCast, init3_int_int]

/-- C8 witness at `Point2D(7, 9)` and `Point3D(1, 2, 3)`. -/
theorem c8_roundtrip_cast_witness :
    (Point2D.astype ⟨.intV 7, .intV 9, "int"⟩ "float" >>= fun r => r.astype "int")
      = Point2D.astype ⟨.intV 7, .intV 9, "int"⟩ "int" ∧
    (Point3D.astype ⟨.intV 1, .intV 2, .intV 3, "int"⟩ "float" >>= fun r => r.astype "int")
      = Point3D.astype ⟨.intV 1, .intV 2, .intV 3, "int"⟩ "int" :=
  c8_roundtrip_cast ⟨.intV 7, .intV 9, "int"⟩ ⟨.intV 1, .intV 2, .intV 3, "int"⟩
    (by decide) (by decide) rfl rfl

/-- C9: dividing any point by the scalar zero, whether the int `0` or the
float `0.0`, raises ZeroDivisionError (from `1 / float(other)`) and returns
no point. -/
theorem c9_division_by_zero (p : Point2D) (P : Point3D) :
    p.div (.intV 0) = .error .zeroDivision ∧
    p.div (.floatV 0) = .error .zeroDivision ∧
    P.div (.intV 0) = .error .zeroDivision ∧
    P.div (.floatV 0) = .error .zeroDivision := by
  refine ⟨?_, ?_, ?_, ?_⟩ <;> with_unfolding_all rfl

/-- C10: on a point whose components are all zero the magnitude is zero, and
`unit_vector` raises ZeroDivisionError instead of returning NaN or infinite
components. -/
theorem c10_zero_vector_unit_raises (p : Point2D) (P : Point3D)
    (_hp : wf2 p = true) (_hP : wf3 P = true)
    (hx : pyNumVal p.x = 0) (hy : pyNumVal p.y = 0)
    (hX : pyNumVal P.x = 0) (hY : pyNumVal P.y = 0) (hZ : pyNumVal P.z = 0) :
    p.magnitude = 0 ∧ p.unit_vector = .error .zeroDivision ∧
    P.magnitude = 0 ∧ P.unit_vector = .error .zeroDivision := by
  refine ⟨?_, ?_, ?_, ?_⟩
  · norm_num [Point2D.magnitude, hx, hy]
  · norm_num [Point2D.unit_vector, hx, hy]
  · norm_num [Point3D.magnitude, hX, hY, hZ]
  · norm_num [Point3D.unit_vector, hX, hY, hZ]

/-- C10 witness at the int and float origin points. -/
theorem c10_zero_vector_unit_raises_witness :
    Point2D.unit_vector ⟨.intV 0, .intV 0, "int"⟩ = .error .zeroDivision ∧
    Point3D.unit_vector ⟨.floatV 0, .floatV 0, .floatV 0, "float"⟩
      = .error .zeroDivision := by
  have h := c10_zero_vector_unit_raises ⟨.intV 0, .intV 0, "int"⟩
    ⟨.floatV 0, .floatV 0, .floatV 0, "float"⟩ (by decide) (by decide)
    (by norm_num [pyNumVal]) (by norm_num [pyNumVal]) (by norm_num [pyNumVal])
    (by norm_num [pyNumVal]) (by norm_num [pyNumVal])
  exact ⟨h.2.1, h.2.2.2⟩
